import Mathlib

/-!
Verification development for the NumVision hand-number detection app.

The repository has two code units relevant to its behavioural claims:

* `services/geminiService.ts` — `detectHandNumber`, which sends one frame to the
  remote model and maps the response (or any failure) into a `DetectionResult`;
* `components/HandDetector.tsx` — the capture loop `processFrame`, the bounded
  history update, and the bounding-box overlay arithmetic.

Both are embedded shallowly below.  Remote/network effects are modelled by an
explicit `RemoteOutcome` value describing what the single awaited call produced;
the browser canvas is modelled by its arithmetic (dimension assignment on a
canvas truncates the assigned number toward zero, per the WebIDL `unsigned
long` conversion).  All JavaScript numbers that the claims touch are modelled
as `ℚ`; the only places the code rounds are the canvas dimension assignment,
which is modelled explicitly.
-/

/-- Bounding box as parsed from the remote JSON response, in the 0–1000
integer scale requested by the prompt (`{ymin, xmin, ymax, xmax}`).
Fields are `ℚ` since `JSON.parse` yields untyped numbers. -/
structure RawBox where
  ymin : ℚ
  xmin : ℚ
  ymax : ℚ
  xmax : ℚ
deriving DecidableEq

/-- Bounding box in normalized 0–1 coordinates — the `BoundingBox` interface of
`types.ts` (`ymin`, `xmin`, `ymax`, `xmax`, each a number). -/
structure BoundingBox where
  ymin : ℚ
  xmin : ℚ
  ymax : ℚ
  xmax : ℚ
deriving DecidableEq

/-- The `DetectionResult` interface of `types.ts`:
`{detected, number (int or null), boundingBox (box or null), confidence,
explanation (optional string)}`. -/
structure DetectionResult where
  detected : Bool
  number : Option ℤ
  boundingBox : Option BoundingBox
  confidence : ℚ
  explanation : Option String
deriving DecidableEq

/-- The JSON object produced by a successful `JSON.parse(text)` in
`detectHandNumber`, with the fields the function reads.  `boundingBox = none`
models an absent or `null` field (falsy under the `if (result.boundingBox)`
check); an object, when present, is always truthy. -/
structure ParsedResponse where
  detected : Bool
  number : Option ℤ
  boundingBox : Option RawBox
  confidence : ℚ
  explanation : Option String
deriving DecidableEq

/-- What the single awaited remote call inside `detectHandNumber` produced.
`throwErr` — `ai.models.generateContent` threw (network error or any other
exception); `noText` — the call resolved but `response.text` was absent or
empty (the code then throws `new Error("No response text from Gemini")`);
`parseErr` — `JSON.parse(text)` threw; `parsed r` — parsing succeeded with
object `r`.  All three failure paths land in the same `catch` block. -/
inductive RemoteOutcome where
  | throwErr
  | noText
  | parseErr
  | parsed (r : ParsedResponse)
deriving DecidableEq

/-- The fixed negative result built in the `catch` block of
`detectHandNumber`. -/
def errorResult : DetectionResult :=
  { detected := false
    number := none
    boundingBox := none
    confidence := 0
    explanation := some "Error processing image" }

/-- The normalization applied when `result.boundingBox` is truthy: each field
divided by 1000 (source lines 76–85 of `geminiService.ts`). -/
def normalizeBox (b : RawBox) : BoundingBox :=
  { ymin := b.ymin / 1000
    xmin := b.xmin / 1000
    ymax := b.ymax / 1000
    xmax := b.xmax / 1000 }

/-- Shallow embedding of `detectHandNumber` as a function of the remote call's
outcome.  The `try` block rethrows on missing text and on parse failure, so
all three failure outcomes return `errorResult` from the `catch`; a parsed
response has its fields copied into the `DetectionResult`, with the bounding
box normalized when present and `null` otherwise. -/
def detectHandNumber : RemoteOutcome → DetectionResult
  | .throwErr => errorResult
  | .noText => errorResult
  | .parseErr => errorResult
  | .parsed r =>
      { detected := r.detected
        number := r.number
        boundingBox := r.boundingBox.map normalizeBox
        confidence := r.confidence
        explanation := r.explanation }

/-- Claim C1: for every outcome of the remote call, `detectHandNumber` absorbs
failure — on a thrown exception, an absent response text, or a JSON parse
failure it returns exactly
`{detected := false, number := null, boundingBox := null, confidence := 0,
explanation := "Error processing image"}` — and never raises past its own
boundary (it is total on all outcomes). -/
theorem detectHandNumber_absorbs_failures :
    detectHandNumber .throwErr =
      { detected := false, number := none, boundingBox := none,
        confidence := 0, explanation := some "Error processing image" } ∧
    detectHandNumber .noText =
      { detected := false, number := none, boundingBox := none,
        confidence := 0, explanation := some "Error processing image" } ∧
    detectHandNumber .parseErr =
      { detected := false, number := none, boundingBox := none,
        confidence := 0, explanation := some "Error processing image" } := by
  refine ⟨rfl, rfl, rfl⟩

/-- Claim C3: for every parsed response carrying a bounding box, the box is
rescaled from the 0–1000 scale to 0–1 by dividing each field by 1000, and the
boundary values 0 and 1000 normalize to exactly 0 and 1. -/
theorem detectHandNumber_normalizes_box :
    (∀ (r : ParsedResponse) (b : RawBox), r.boundingBox = some b →
        (detectHandNumber (.parsed r)).boundingBox =
          some { ymin := b.ymin / 1000, xmin := b.xmin / 1000,
                 ymax := b.ymax / 1000, xmax := b.xmax / 1000 }) ∧
    normalizeBox { ymin := 0, xmin := 0, ymax := 1000, xmax := 1000 } =
      { ymin := 0, xmin := 0, ymax := 1, xmax := 1 } := by
  constructor
  · intro r b hb
    simp [detectHandNumber, hb, normalizeBox]
  · norm_num [normalizeBox]

/-- Witness for C3: the concrete parsed response with box
`{ymin := 100, xmin := 200, ymax := 600, xmax := 700}` normalizes to
`{ymin := 1/10, xmin := 1/5, ymax := 3/5, xmax := 7/10}`. -/
theorem detectHandNumber_normalizes_box_witness :
    (detectHandNumber (.parsed
        { detected := true, number := some 4,
          boundingBox := some { ymin := 100, xmin := 200, ymax := 600, xmax := 700 },
          confidence := 87 / 100, explanation := some "hand" })).boundingBox =
      some { ymin := (100 : ℚ) / 1000, xmin := (200 : ℚ) / 1000,
             ymax := (600 : ℚ) / 1000, xmax := (700 : ℚ) / 1000 } :=
  detectHandNumber_normalizes_box.1
    { detected := true, number := some 4,
      boundingBox := some { ymin := 100, xmin := 200, ymax := 600, xmax := 700 },
      confidence := 87 / 100, explanation := some "hand" }
    { ymin := 100, xmin := 200, ymax := 600, xmax := 700 } rfl

/-- Claim C10: for every successfully parsed response whose `boundingBox`
field is absent or null, the result has `boundingBox = null` and the remaining
fields are taken from the response — including `detected = true` with no
box. -/
theorem detectHandNumber_no_box_passthrough :
    ∀ r : ParsedResponse, r.boundingBox = none →
      detectHandNumber (.parsed r) =
        { detected := r.detected, number := r.number, boundingBox := none,
          confidence := r.confidence, explanation := r.explanation } := by
  intro r hb
  simp [detectHandNumber, hb]

/-- Witness for C10: a parsed response with `detected = true` and no box
yields the pass-through result with a null box. -/
theorem detectHandNumber_no_box_passthrough_witness :
    detectHandNumber (.parsed
        { detected := true, number := some 4, boundingBox := none,
          confidence := 9 / 10, explanation := some "four fingers" }) =
      { detected := true, number := some 4, boundingBox := none,
        confidence := 9 / 10, explanation := some "four fingers" } :=
  detectHandNumber_no_box_passthrough
    { detected := true, number := some 4, boundingBox := none,
      confidence := 9 / 10, explanation := some "four fingers" } rfl

/-- Counterexample to claim C7 as stated: `detectHandNumber` copies a parsed
response's fields through without enforcing the invariant, so a response with
`detected = false` that nonetheless carries a box, a number and a nonzero
confidence is returned as a `DetectionResult` with `detected = false` but
`boundingBox ≠ null`, `number ≠ null` and `confidence ≠ 0`. -/
theorem detected_false_invariant_counterexample :
    (detectHandNumber (.parsed
        { detected := false, number := some 3,
          boundingBox := some { ymin := 100, xmin := 200, ymax := 600, xmax := 700 },
          confidence := 1 / 2, explanation := some "unclear" })).detected = false ∧
    (detectHandNumber (.parsed
        { detected := false, number := some 3,
          boundingBox := some { ymin := 100, xmin := 200, ymax := 600, xmax := 700 },
          confidence := 1 / 2, explanation := some "unclear" })).boundingBox ≠ none ∧
    (detectHandNumber (.parsed
        { detected := false, number := some 3,
          boundingBox := some { ymin := 100, xmin := 200, ymax := 600, xmax := 700 },
          confidence := 1 / 2, explanation := some "unclear" })).number ≠ none ∧
    (detectHandNumber (.parsed
        { detected := false, number := some 3,
          boundingBox := some { ymin := 100, xmin := 200, ymax := 600, xmax := 700 },
          confidence := 1 / 2, explanation := some "unclear" })).confidence ≠ 0 := by
  refine ⟨rfl, ?_, ?_, ?_⟩
  · simp [detectHandNumber]
  · simp [detectHandNumber]
  · norm_num [detectHandNumber]

/-- Claim C7 (amended): the invariant `detected = false → boundingBox = null ∧
number = null ∧ confidence = 0` holds for every result produced on the failure
path, and holds for a parsed response exactly when the response itself already
satisfies it — the client copies parsed fields through unchecked. -/
theorem detected_false_invariant_amended :
    (∀ o : RemoteOutcome, (∀ r, o ≠ .parsed r) →
        (detectHandNumber o).detected = false ∧
        (detectHandNumber o).boundingBox = none ∧
        (detectHandNumber o).number = none ∧
        (detectHandNumber o).confidence = 0) ∧
    (∀ r : ParsedResponse, r.boundingBox = none → r.number = none →
        r.confidence = 0 →
        (detectHandNumber (.parsed r)).boundingBox = none ∧
        (detectHandNumber (.parsed r)).number = none ∧
        (detectHandNumber (.parsed r)).confidence = 0) := by
  constructor
  · intro o ho
    cases o with
    | throwErr => exact ⟨rfl, rfl, rfl, rfl⟩
    | noText => exact ⟨rfl, rfl, rfl, rfl⟩
    | parseErr => exact ⟨rfl, rfl, rfl, rfl⟩
    | parsed r => exact absurd rfl (ho r)
  · intro r hb hn hc
    simp [detectHandNumber, hb, hn, hc]

/-- Witness for the amended C7: instantiated at the thrown-exception outcome
and at a parsed response that itself satisfies the invariant. -/
theorem detected_false_invariant_amended_witness :
    ((detectHandNumber .throwErr).boundingBox = none ∧
      (detectHandNumber .throwErr).number = none ∧
      (detectHandNumber .throwErr).confidence = 0) ∧
    ((detectHandNumber (.parsed
        { detected := false, number := none, boundingBox := none,
          confidence := 0, explanation := some "no hand" })).boundingBox = none ∧
      (detectHandNumber (.parsed
        { detected := false, number := none, boundingBox := none,
          confidence := 0, explanation := some "no hand" })).number = none ∧
      (detectHandNumber (.parsed
        { detected := false, number := none, boundingBox := none,
          confidence := 0, explanation := some "no hand" })).confidence = 0) :=
  ⟨(detected_false_invariant_amended.1 .throwErr (by intro r h; cases h)).2,
   detected_false_invariant_amended.2
     { detected := false, number := none, boundingBox := none,
       confidence := 0, explanation := some "no hand" } rfl rfl rfl⟩

/-- Video source dimensions (`videoWidth`/`videoHeight` of the `<video>`
element), nonnegative integers. -/
structure Dims where
  width : ℕ
  height : ℕ
deriving DecidableEq

/-- The fixed downscale target width of the frame sampler
(`const targetWidth = 320` in `processFrame`). -/
def targetWidth : ℕ := 320

/-- The sampler's scale factor `scale = targetWidth / video.videoWidth`. -/
def scale (v : Dims) : ℚ := (targetWidth : ℚ) / (v.width : ℚ)

/-- The sampler's computed height `targetHeight = video.videoHeight * scale`,
as the exact rational the code computes before it is assigned to the
canvas. -/
def targetHeight (v : Dims) : ℚ := (v.height : ℚ) * scale v

/-- The height of the scratch canvas after `tempCanvas.height = targetHeight`:
assigning a canvas dimension converts the number through the WebIDL
`unsigned long` conversion, which truncates toward zero — for the nonnegative
heights produced here, the floor. -/
def canvasHeight (v : Dims) : ℕ := (⌊targetHeight v⌋).toNat

/-- Dimensions of the encoded image the sampler produces: the scratch canvas's
`(width, height)` after `tempCanvas.width = targetWidth;
tempCanvas.height = targetHeight`. -/
def sampleDims (v : Dims) : ℕ × ℕ := (targetWidth, canvasHeight v)

/-- Counterexample to claim C6 as stated: for video dimensions `(640, 483)`
the sampler's canvas height is `⌊483 * 320 / 640⌋ = ⌊241.5⌋ = 241` (canvas
dimension assignment truncates), while the claimed `round(H * 320 / W)` is
`round 241.5 = 242`. -/
theorem sampler_height_round_counterexample :
    canvasHeight { width := 640, height := 483 } = 241 ∧
    round ((483 : ℚ) * 320 / 640) = 242 ∧
    (canvasHeight { width := 640, height := 483 } : ℤ) ≠
      round ((483 : ℚ) * 320 / 640) := by
  have h1 : canvasHeight { width := 640, height := 483 } = 241 := by
    have ht : targetHeight { width := 640, height := 483 } = 483 / 2 := by
      norm_num [targetHeight, scale, targetWidth]
    have hf : ⌊(483 / 2 : ℚ)⌋ = 241 := by
      rw [Int.floor_eq_iff]; norm_num
    simp only [canvasHeight, ht, hf]
    rfl
  have h2 : round ((483 : ℚ) * 320 / 640) = 242 := by
    rw [round_eq, Int.floor_eq_iff]; norm_num
  refine ⟨h1, h2, ?_⟩
  rw [h1, h2]
  norm_num

/-- Claim C6 (amended): for all video dimensions with `W > 0`, the sampler
produces width exactly 320 and height `⌊H * 320 / W⌋` — the scaled height
truncated (floored), not rounded, because assigning a fractional value to a
canvas dimension truncates it. -/
theorem sampler_dims_floor (v : Dims) (_hw : 0 < v.width) :
    sampleDims v = (targetWidth, v.height * targetWidth / v.width) := by
  simp only [sampleDims, canvasHeight, targetHeight, scale, Int.floor_toNat]
  congr 1
  rw [show (v.height : ℚ) * ((targetWidth : ℚ) / (v.width : ℚ)) =
        ((v.height * targetWidth : ℕ) : ℚ) / (v.width : ℚ) by push_cast; ring]
  exact Nat.floor_div_eq_div _ _

/-- Witness for the amended C6 at `(W, H) = (640, 483)`: output is width 320
and height `⌊241.5⌋ = 241`. -/
theorem sampler_dims_floor_witness :
    sampleDims { width := 640, height := 483 } = (320, 241) := by
  have h := sampler_dims_floor { width := 640, height := 483 } (by norm_num)
  simpa [targetWidth] using h

/-- Mirrored left edge computed by the overlay renderer:
`const mirroredXMin = 1 - xmax`. -/
def mirroredXMin (b : BoundingBox) : ℚ := 1 - b.xmax

/-- Mirrored right edge computed by the overlay renderer:
`const mirroredXMax = 1 - xmin`. -/
def mirroredXMax (b : BoundingBox) : ℚ := 1 - b.xmin

/-- Pixel rectangle `(x, y, w, h)` passed to `ctx.strokeRect` by the overlay
renderer, for a normalized box `b` on a drawing surface of size
`cw × ch` (the canvas matched to the video's dimensions). -/
def overlayRect (b : BoundingBox) (cw ch : ℚ) : ℚ × ℚ × ℚ × ℚ :=
  (mirroredXMin b * cw, b.ymin * ch,
    (mirroredXMax b - mirroredXMin b) * cw, (b.ymax - b.ymin) * ch)

/-- Claim C2: for every normalized box with all coordinates in `[0, 1]`, the
overlay renderer computes `mirroredXMin = 1 - xmax`, `mirroredXMax = 1 - xmin`
(leaving `ymin`/`ymax` unchanged) and draws at
`x = mirroredXMin * surfaceWidth`, `y = ymin * surfaceHeight`,
`w = (mirroredXMax - mirroredXMin) * surfaceWidth`,
`h = (ymax - ymin) * surfaceHeight`; for `{xmin := 0.2, xmax := 0.5}` the
mirrored values are `0.5` and `0.8`. -/
theorem overlay_mirror_transform :
    (∀ (b : BoundingBox) (cw ch : ℚ),
        0 ≤ b.ymin ∧ b.ymin ≤ 1 ∧ 0 ≤ b.xmin ∧ b.xmin ≤ 1 ∧
        0 ≤ b.ymax ∧ b.ymax ≤ 1 ∧ 0 ≤ b.xmax ∧ b.xmax ≤ 1 →
        mirroredXMin b = 1 - b.xmax ∧ mirroredXMax b = 1 - b.xmin ∧
        overlayRect b cw ch =
          ((1 - b.xmax) * cw, b.ymin * ch,
            ((1 - b.xmin) - (1 - b.xmax)) * cw, (b.ymax - b.ymin) * ch)) ∧
    mirroredXMin { ymin := 0, xmin := 1 / 5, ymax := 1, xmax := 1 / 2 } = 1 / 2 ∧
    mirroredXMax { ymin := 0, xmin := 1 / 5, ymax := 1, xmax := 1 / 2 } = 4 / 5 := by
  refine ⟨fun b cw ch _ => ⟨rfl, rfl, rfl⟩, ?_, ?_⟩ <;>
    norm_num [mirroredXMin, mirroredXMax]

/-- Witness for C2 at the box `{ymin := 0.1, xmin := 0.2, ymax := 0.6,
xmax := 0.5}` on a 640×480 surface. -/
theorem overlay_mirror_transform_witness :
    overlayRect { ymin := 1 / 10, xmin := 1 / 5, ymax := 3 / 5, xmax := 1 / 2 }
        640 480 =
      ((1 - (1 / 2 : ℚ)) * 640, (1 / 10 : ℚ) * 480,
        ((1 - (1 / 5 : ℚ)) - (1 - (1 / 2 : ℚ))) * 640,
        ((3 / 5 : ℚ) - 1 / 10) * 480) :=
  (overlay_mirror_transform.1
    { ymin := 1 / 10, xmin := 1 / 5, ymax := 3 / 5, xmax := 1 / 2 } 640 480
    (by norm_num)).2.2

/-- One entry of the detection history: `{ timestamp: Date.now(), result }`. -/
structure HistoryItem where
  timestamp : ℕ
  result : DetectionResult
deriving DecidableEq

/-- The `AppState` interface of `types.ts`:
`{isProcessing, currentResult (result or null), history}`. -/
structure AppState where
  isProcessing : Bool
  currentResult : Option DetectionResult
  history : List HistoryItem
deriving DecidableEq

/-- The initial `useState<AppState>` value:
`{isProcessing: false, currentResult: null, history: []}`. -/
def initialState : AppState :=
  { isProcessing := false, currentResult := none, history := [] }

/-- The state update applied when the classification result resolves
(`setState` at lines 89–101 of `HandDetector.tsx`): a detected result is
prepended to the history which is then truncated with `.slice(0, 10)`, a
non-detected result leaves the history unchanged; `isProcessing` is cleared
and `currentResult` replaced in both cases. -/
def recordResult (now : ℕ) (result : DetectionResult) (s : AppState) : AppState :=
  let newHistory :=
    if result.detected then
      (({ timestamp := now, result := result } : HistoryItem) :: s.history).take 10
    else s.history
  { isProcessing := false, currentResult := some result, history := newHistory }

/-- History component of `recordResult`, as a function of the history alone
(the update reads no other state field). -/
def histStep (h : List HistoryItem) (e : ℕ × DetectionResult) : List HistoryItem :=
  if e.2.detected then
    (({ timestamp := e.1, result := e.2 } : HistoryItem) :: h).take 10
  else h

/-- Folding `recordResult` over a sequence of timestamped results, modelling
the results recorded over successive cycles. -/
def runRecord (events : List (ℕ × DetectionResult)) (s : AppState) : AppState :=
  events.foldl (fun t e => recordResult e.1 e.2 t) s

theorem recordResult_history (e : ℕ × DetectionResult) (s : AppState) :
    (recordResult e.1 e.2 s).history = histStep s.history e := rfl

theorem runRecord_history (events : List (ℕ × DetectionResult)) (s : AppState) :
    (runRecord events s).history = events.foldl histStep s.history := by
  induction events generalizing s with
  | nil => rfl
  | cons e es ih =>
      rw [show runRecord (e :: es) s = runRecord es (recordResult e.1 e.2 s) from rfl,
        ih, recordResult_history, List.foldl_cons]

theorem take_append_absorb {α : Type} (n : ℕ) (A B : List α) :
    (A ++ B.take n).take n = (A ++ B).take n := by
  rw [List.take_append_eq_append_take, List.take_append_eq_append_take,
    List.take_take, Nat.min_eq_left (Nat.sub_le n A.length)]

theorem foldl_histStep_characterization (events : List (ℕ × DetectionResult))
    (h : List HistoryItem) (hlen : h.length ≤ 10) :
    events.foldl histStep h =
      (((events.filter fun e => e.2.detected).reverse.map
          fun e => ({ timestamp := e.1, result := e.2 } : HistoryItem)) ++ h).take 10 := by
  induction events generalizing h with
  | nil => simp [List.take_of_length_le hlen]
  | cons e es ih =>
      by_cases hd : e.2.detected
      · have hlen' :
            ((({ timestamp := e.1, result := e.2 } : HistoryItem) :: h).take 10).length ≤ 10 := by
          rw [List.length_take]
          exact min_le_left _ _
        rw [List.foldl_cons, show histStep h e =
            (({ timestamp := e.1, result := e.2 } : HistoryItem) :: h).take 10 by
              simp [histStep, hd]]
        rw [ih _ hlen', take_append_absorb]
        simp [List.filter_cons, hd, List.append_assoc]
      · rw [List.foldl_cons, show histStep h e = h by simp [histStep, hd], ih h hlen]
        simp [List.filter_cons, hd]

/-- Claim C4: over every sequence of recorded results the history holds at
most 10 entries and equals the 10 newest accepted results, newest first (the
reversed chronological list of `detected = true` results, truncated to 10);
recording a non-detection leaves the history unchanged, and recording a
detection prepends it and truncates the list to 10. -/
theorem history_bounded_newest_first :
    (∀ events : List (ℕ × DetectionResult),
        (runRecord events initialState).history.length ≤ 10 ∧
        (runRecord events initialState).history =
          (((events.filter fun e => e.2.detected).reverse.map
              fun e => ({ timestamp := e.1, result := e.2 } : HistoryItem))).take 10) ∧
    (∀ (now : ℕ) (r : DetectionResult) (s : AppState), r.detected = false →
        (recordResult now r s).history = s.history) ∧
    (∀ (now : ℕ) (r : DetectionResult) (s : AppState), r.detected = true →
        (recordResult now r s).history =
          (({ timestamp := now, result := r } : HistoryItem) :: s.history).take 10) := by
  refine ⟨fun events => ?_, fun now r s hr => ?_, fun now r s hr => ?_⟩
  · rw [runRecord_history]
    simp only [initialState]
    rw [foldl_histStep_characterization events [] (by simp), List.append_nil]
    constructor
    · rw [List.length_take]
      exact min_le_left _ _
    · rfl
  · simp [recordResult, hr]
  · simp [recordResult, hr]

/-- Witness for C4: a non-detected result (the canonical error result) leaves
the empty history unchanged, and a detected result prepends itself. -/
theorem history_bounded_newest_first_witness :
    (recordResult 5 errorResult initialState).history = initialState.history ∧
    (recordResult 6
        { detected := true, number := some 2, boundingBox := none,
          confidence := 1, explanation := none } initialState).history =
      (({ timestamp := 6,
          result := { detected := true, number := some 2, boundingBox := none,
                      confidence := 1, explanation := none } } : HistoryItem) ::
        initialState.history).take 10 :=
  ⟨history_bounded_newest_first.2.1 5 errorResult initialState rfl,
   history_bounded_newest_first.2.2 6
     { detected := true, number := some 2, boundingBox := none,
       confidence := 1, explanation := none } initialState rfl⟩

/-- Events observed by the loop.  `trigger video ctxOk` is one invocation of
`processFrame` (manual button press or the scheduled auto-process call),
carrying the video element (`none` when `videoRef.current` is null, otherwise
its dimensions) and whether `tempCanvas.getContext` succeeds.  Because there
is no `await` between the guard checks and the `detectHandNumber` call, the
guard, the flag set, the frame capture and the request issue happen in one
uninterrupted step.  `complete remote now` is the resolution of the awaited
remote call — the continuation after `await detectHandNumber`, recording the
result at time `now`. -/
inductive Event where
  | trigger (video : Option Dims) (ctxOk : Bool)
  | complete (remote : RemoteOutcome) (now : ℕ)

/-- Loop state: the component's `AppState` plus the number of classification
requests currently in flight (not a program variable — an auxiliary counter
tracking issued-but-unresolved calls to `detectHandNumber`). -/
structure SysState where
  app : AppState
  outstanding : ℕ
deriving DecidableEq

/-- Initial system state: initial `AppState`, no request in flight. -/
def initialSys : SysState := { app := initialState, outstanding := 0 }

/-- Effect of one `processFrame` invocation up to its first `await`:
`if (!videoRef.current || state.isProcessing) return;` then
`if (videoWidth === 0 || videoHeight === 0) return;` then
`setState isProcessing := true`; then, in the `try` block, a null drawing
context throws, and the `catch` sets `isProcessing := false` (no request
issued); otherwise the request is issued (`outstanding` increments). -/
def triggerStep (video : Option Dims) (ctxOk : Bool) (s : SysState) : SysState :=
  match video with
  | none => s
  | some v =>
      if s.app.isProcessing then s
      else if v.width = 0 ∨ v.height = 0 then s
      else if ctxOk then
        { app := { s.app with isProcessing := true }, outstanding := s.outstanding + 1 }
      else
        { s with app := { s.app with isProcessing := false } }

/-- Effect of a request resolving: the result (success or absorbed failure)
is recorded via `recordResult`, which also clears `isProcessing`.  A
completion can only arrive for an issued request, so the `outstanding = 0`
branch never occurs along a real trace; it is a no-op to keep the step
function total. -/
def completeStep (remote : RemoteOutcome) (now : ℕ) (s : SysState) : SysState :=
  if s.outstanding = 0 then s
  else
    { app := recordResult now (detectHandNumber remote) s.app,
      outstanding := s.outstanding - 1 }

/-- One step of the loop. -/
def stepEv (s : SysState) : Event → SysState
  | .trigger v c => triggerStep v c s
  | .complete r now => completeStep r now s

/-- Running the loop over a sequence of events from the initial state. -/
def runSys (events : List Event) : SysState := events.foldl stepEv initialSys

/-- Invariant tying the in-flight flag to the number of outstanding
requests. -/
def SysInv (s : SysState) : Prop :=
  s.outstanding = if s.app.isProcessing then 1 else 0

theorem sysInv_step (s : SysState) (e : Event) (h : SysInv s) : SysInv (stepEv s e) := by
  unfold SysInv at h ⊢
  cases e with
  | trigger v c =>
      cases v with
      | none => exact h
      | some d =>
          by_cases hp : s.app.isProcessing
          · simpa [stepEv, triggerStep, hp] using h
          · by_cases hz : d.width = 0 ∨ d.height = 0
            · simpa [stepEv, triggerStep, hp, hz] using h
            · by_cases hc : c
              · have h0 : s.outstanding = 0 := by
                  rw [if_neg hp] at h
                  exact h
                simp [stepEv, triggerStep, hp, hz, hc, h0]
              · simpa [stepEv, triggerStep, hp, hz, hc] using h
  | complete r now =>
      by_cases h0 : s.outstanding = 0
      · simpa [stepEv, completeStep, h0] using h
      · have hp : s.app.isProcessing = true := by
          by_contra hq
          rw [if_neg hq] at h
          exact h0 h
        rw [hp, if_pos rfl] at h
        simp [stepEv, completeStep, h0, recordResult, h]

theorem sysInv_runSys (events : List Event) : SysInv (runSys events) := by
  suffices hgen : ∀ s, SysInv s → SysInv (events.foldl stepEv s) by
    exact hgen initialSys rfl
  induction events with
  | nil => exact fun s hs => hs
  | cons e es ih => exact fun s hs => ih _ (sysInv_step s e hs)

/-- Claim C5: along every event trace, at most one classification request is
outstanding — exactly one when the in-flight flag is set and none otherwise;
while the flag is set every further trigger (manual or scheduled) is a no-op;
starting a cycle (a trigger that passes the guards with a usable context)
sets the flag and issues the one request; and a completion always leaves the
flag cleared. -/
theorem in_flight_serializes_cycles :
    ∀ events : List Event,
      ((runSys events).outstanding =
        if (runSys events).app.isProcessing then 1 else 0) ∧
      (runSys events).outstanding ≤ 1 ∧
      ((runSys events).app.isProcessing = true →
        ∀ (v : Option Dims) (c : Bool),
          stepEv (runSys events) (.trigger v c) = runSys events) ∧
      (∀ d : Dims, (runSys events).app.isProcessing = false →
          ¬(d.width = 0 ∨ d.height = 0) →
        (stepEv (runSys events) (.trigger (some d) true)).app.isProcessing = true ∧
        (stepEv (runSys events) (.trigger (some d) true)).outstanding =
          (runSys events).outstanding + 1) ∧
      (∀ (r : RemoteOutcome) (now : ℕ),
        (stepEv (runSys events) (.complete r now)).app.isProcessing = false) := by
  intro events
  have hinv := sysInv_runSys events
  unfold SysInv at hinv
  refine ⟨hinv, ?_, ?_, ?_, ?_⟩
  · rw [hinv]
    split <;> omega
  · intro hp v c
    cases v with
    | none => rfl
    | some d => simp [stepEv, triggerStep, hp]
  · intro d hp hz
    simp [stepEv, triggerStep, hp, hz]
  · intro r now
    by_cases h0 : (runSys events).outstanding = 0
    · have hp : (runSys events).app.isProcessing = false := by
        by_contra hq
        rw [if_pos (by simpa using hq)] at hinv
        rw [hinv] at h0
        exact absurd h0 one_ne_zero
      simpa [stepEv, completeStep, h0] using hp
    · simp [stepEv, completeStep, h0, recordResult]

/-- Witness for C5: after one successful trigger the flag is set and one
request is outstanding, and a second trigger is a no-op. -/
theorem in_flight_serializes_cycles_witness :
    stepEv (runSys [.trigger (some { width := 640, height := 480 }) true])
        (.trigger (some { width := 320, height := 240 }) true) =
      runSys [.trigger (some { width := 640, height := 480 }) true] :=
  (in_flight_serializes_cycles
      [.trigger (some { width := 640, height := 480 }) true]).2.2.1
    (by decide) (some { width := 320, height := 240 }) true

/-- Claim C8: a `processFrame` invocation while the video source reports a
zero width or zero height is a no-op — the whole system state (flag, current
result, history, outstanding requests) is unchanged and no classification
request is issued. -/
theorem zero_dims_noop :
    ∀ (s : SysState) (v : Dims) (c : Bool), v.width = 0 ∨ v.height = 0 →
      stepEv s (.trigger (some v) c) = s := by
  intro s v c hz
  by_cases hp : s.app.isProcessing
  · simp [stepEv, triggerStep, hp]
  · simp [stepEv, triggerStep, hp, hz]

/-- Witness for C8: a trigger with a zero-width source leaves the initial
state untouched. -/
theorem zero_dims_noop_witness :
    stepEv initialSys (.trigger (some { width := 0, height := 480 }) true) =
      initialSys :=
  zero_dims_noop initialSys { width := 0, height := 480 } true (Or.inl rfl)

/-- Claim C9: if the drawing context cannot be obtained after the in-flight
flag was set, the `catch` handler resets `isProcessing` to `false` and leaves
`currentResult`, `history` and the set of outstanding requests unchanged —
the failed capture neither corrupts the result state nor wedges the loop. -/
theorem capture_error_resets_flag :
    ∀ (s : SysState) (v : Dims), s.app.isProcessing = false →
      ¬(v.width = 0 ∨ v.height = 0) →
      (stepEv s (.trigger (some v) false)).app.isProcessing = false ∧
      (stepEv s (.trigger (some v) false)).app.currentResult = s.app.currentResult ∧
      (stepEv s (.trigger (some v) false)).app.history = s.app.history ∧
      (stepEv s (.trigger (some v) false)).outstanding = s.outstanding := by
  intro s v hp hz
  simp [stepEv, triggerStep, hp, hz]

/-- Witness for C9: a trigger with a failing drawing context on a ready
640×480 source leaves the initial state's results, history and outstanding
count unchanged with the flag cleared. -/
theorem capture_error_resets_flag_witness :
    (stepEv initialSys
        (.trigger (some { width := 640, height := 480 }) false)).app.isProcessing = false ∧
    (stepEv initialSys
        (.trigger (some { width := 640, height := 480 }) false)).app.currentResult =
      initialSys.app.currentResult ∧
    (stepEv initialSys
        (.trigger (some { width := 640, height := 480 }) false)).app.history =
      initialSys.app.history ∧
    (stepEv initialSys
        (.trigger (some { width := 640, height := 480 }) false)).outstanding =
      initialSys.outstanding :=
  capture_error_resets_flag initialSys { width := 640, height := 480 } rfl (by decide)
